import Mathlib

/-!
Shallow embedding of the delivery-bot backend (`src/main.py`).

The backend keeps a single SQL table `deliveries` and five JSON endpoints plus
two HTML pages.  We model:

* the table as a `Store`: a list of rows in insertion order together with the
  next surrogate id (SQLite/Postgres style autoincrementing primary key);
* each route handler as a pure function from the store (and its inputs) to a
  new store, an HTTP response (`Except HTTPException α`), and the list of SMS
  attempts the handler made, in order;
* the Twilio provider as an oracle `Provider := String → String → Option String`
  (`some sid` = confirmed acceptance, `none` = any failure: misconfiguration,
  network error, rejection).  `send_sms` wraps the oracle in the
  try/except of the source and returns `Bool`, never failing;
* `datetime.utcnow().isoformat()` as an opaque timestamp string passed in by
  the caller (`now`), exactly as the handler would compute it;
* SQL floats (`lat`/`lon`) as rationals: the handlers only store and echo
  them, never compute with them, so any type with decidable equality is a
  faithful image of the finite floats.

The SQL statements are translated clause by clause:
`INSERT .. ON CONFLICT(order_id) DO UPDATE` becomes `upsertRow`,
`SELECT .. WHERE order_id = :order_id` + `fetchone()` becomes `Store.findRow`
(first match), `UPDATE .. WHERE order_id=:order_id` becomes a map that
rewrites every matching row, and `SELECT * .. ORDER BY id DESC` becomes a
merge sort by descending id.
-/

namespace DeliveryBot

/-- A row of the `deliveries` table (see `_ensure_db` in `src/main.py`). -/
structure DeliveryRow where
  id : Nat
  order_id : String
  pickup_location : String
  drop_location : String
  customer_contact : String
  status : String
  target_lat : Option Rat
  target_lon : Option Rat
  created_at : String
  updated_at : String
deriving DecidableEq, Repr

/-- The `deliveries` table: rows in insertion order (ascending surrogate id)
and the next id the store will assign. -/
structure Store where
  rows : List DeliveryRow
  nextId : Nat
deriving DecidableEq, Repr

/-- The empty table right after `_ensure_db`; SQL surrogate keys start at 1. -/
def Store.empty : Store := ⟨[], 1⟩

/-- The `DeliveryCreate` pydantic schema (field-length validation happens in
the schema layer, before the handler runs). -/
structure DeliveryCreate where
  order_id : String
  pickup_location : String
  drop_location : String
  customer_contact : String
deriving DecidableEq, Repr

/-- The `LocationUpdate` pydantic schema. -/
structure LocationUpdate where
  lat : Rat
  lon : Rat
deriving DecidableEq, Repr

/-- FastAPI's `HTTPException(status_code=..., detail=...)`. -/
structure HTTPException where
  status_code : Nat
  detail : String
deriving DecidableEq, Repr

/-- One attempted outbound SMS: recipient, body, and whether `send_sms`
reported acceptance. -/
structure SmsAttempt where
  to_number : String
  body : String
  accepted : Bool
deriving DecidableEq, Repr

/-- The Twilio side, as an oracle: `some sid` when the provider confirms
acceptance, `none` on any failure (raised inside the client call). -/
def Provider : Type := String → String → Option String

/-- The function `send_sms` of `src/main.py`: try the provider, return `true`
on confirmed acceptance, `false` on any failure; it never raises. -/
def send_sms (provider : Provider) (to_number : String) (message : String) : Bool :=
  match provider to_number message with
  | some _ => true
  | none => false

/-- SELECT * FROM deliveries WHERE order_id = :order_id, `fetchone()`:
the first row carrying that order id, if any. -/
def Store.findRow (s : Store) (order_id : String) : Option DeliveryRow :=
  s.rows.find? (fun r => r.order_id == order_id)

/-- INSERT INTO deliveries (...) VALUES (..., 'created', :now, :now)
ON CONFLICT(order_id) DO UPDATE SET pickup_location=excluded.pickup_location,
drop_location=excluded.drop_location, customer_contact=excluded.customer_contact,
updated_at=excluded.updated_at.  On conflict the existing row keeps its id,
status, created_at and target coordinates. -/
def upsertRow (s : Store) (p : DeliveryCreate) (now : String) : Store :=
  if s.rows.any (fun r => r.order_id == p.order_id) then
    { s with rows := s.rows.map (fun r =>
        if r.order_id == p.order_id then
          { r with pickup_location := p.pickup_location,
                   drop_location := p.drop_location,
                   customer_contact := p.customer_contact,
                   updated_at := now }
        else r) }
  else
    { rows := s.rows ++ [{ id := s.nextId, order_id := p.order_id,
                           pickup_location := p.pickup_location,
                           drop_location := p.drop_location,
                           customer_contact := p.customer_contact,
                           status := "created",
                           target_lat := none, target_lon := none,
                           created_at := now, updated_at := now }],
      nextId := s.nextId + 1 }

/-- What a handler leaves behind: the committed store, the HTTP response,
and the SMS attempts made, in order. -/
structure HandlerResult (α : Type) where
  store : Store
  resp : Except HTTPException α
  sms : List SmsAttempt

/-- The JSON object returned by `create_delivery` on success. -/
structure CreateResponse where
  status : String
  message : String
  order_id : String
  pickup : String
  drop : String
  customer_contact : String
  db_id : Nat
  current_status : String
  created_at : String
  updated_at : String
deriving DecidableEq, Repr

/-- POST /create_delivery (`create_delivery` in `src/main.py`): upsert the
row, commit, re-read it, then send the share-link SMS and return the row's
fields.  `server_url` is the `SERVER_URL` environment value. -/
def create_delivery (provider : Provider) (server_url : String)
    (s : Store) (payload : DeliveryCreate) (now : String) :
    HandlerResult CreateResponse :=
  let s1 := upsertRow s payload now
  match s1.findRow payload.order_id with
  | none =>
      ⟨s1, .error ⟨500, "Failed to retrieve order after creation."⟩, []⟩
  | some row =>
      let message := "Your parcel has been received!\nOrder ID: " ++ row.order_id
        ++ "\nPlease share your location: " ++ server_url ++ "/share/" ++ row.order_id
      let ok := send_sms provider row.customer_contact message
      ⟨s1,
       .ok { status := "success",
             message := "Delivery task created ✅ & SMS sent",
             order_id := row.order_id,
             pickup := row.pickup_location,
             drop := row.drop_location,
             customer_contact := row.customer_contact,
             db_id := row.id,
             current_status := row.status,
             created_at := row.created_at,
             updated_at := row.updated_at },
       [⟨row.customer_contact, message, ok⟩]⟩

/-- GET /deliveries (`list_deliveries`): SELECT * FROM deliveries
ORDER BY id DESC. -/
def list_deliveries (s : Store) : List DeliveryRow :=
  s.rows.mergeSort (fun a b => decide (b.id ≤ a.id))

/-- GET /deliveries/{order_id} (`get_delivery`): point lookup, 404 when the
row is absent. -/
def get_delivery (s : Store) (order_id : String) : Except HTTPException DeliveryRow :=
  match s.findRow order_id with
  | none => .error ⟨404, "order not found"⟩
  | some row => .ok row

/-- The JSON object returned by `set_target_location` on success. -/
structure LocationResponse where
  status : String
  order_id : String
  lat : Rat
  lon : Rat
  current_status : String
deriving DecidableEq, Repr

/-- POST /deliveries/{order_id}/location (`set_target_location`): read the
contact (404 if the row is absent, nothing written), UPDATE target_lat,
target_lon, status='location_received', updated_at, commit, then SMS the
pre-update contact and echo the caller's values. -/
def set_target_location (provider : Provider)
    (s : Store) (order_id : String) (loc : LocationUpdate) (now : String) :
    HandlerResult LocationResponse :=
  match s.findRow order_id with
  | none => ⟨s, .error ⟨404, "order not found"⟩, []⟩
  | some row =>
      let customer_contact := row.customer_contact
      let s1 : Store := { s with rows := s.rows.map (fun r =>
        if r.order_id == order_id then
          { r with target_lat := some loc.lat, target_lon := some loc.lon,
                   status := "location_received", updated_at := now }
        else r) }
      let message := "✅ Delivery Bot received your location! Order ID: " ++ order_id
      let ok := send_sms provider customer_contact message
      ⟨s1,
       .ok { status := "ok", order_id := order_id, lat := loc.lat, lon := loc.lon,
             current_status := "location_received" },
       [⟨customer_contact, message, ok⟩]⟩

/-- The JSON object returned by `update_status` on success. -/
structure StatusResponse where
  status : String
  order_id : String
  current_status : String
deriving DecidableEq, Repr

/-- POST /deliveries/{order_id}/status/{new_status} (`update_status`): read
the contact (404 if absent), UPDATE status and updated_at verbatim, commit,
then SMS on "completed" or "failed" only, and echo the path parameter. -/
def update_status (provider : Provider)
    (s : Store) (order_id : String) (new_status : String) (now : String) :
    HandlerResult StatusResponse :=
  match s.findRow order_id with
  | none => ⟨s, .error ⟨404, "order not found"⟩, []⟩
  | some row =>
      let customer_contact := row.customer_contact
      let s1 : Store := { s with rows := s.rows.map (fun r =>
        if r.order_id == order_id then
          { r with status := new_status, updated_at := now }
        else r) }
      let sms :=
        if new_status == "completed" then
          let m := "✅ Your parcel (Order " ++ order_id ++ ") has been delivered!"
          [⟨customer_contact, m, send_sms provider customer_contact m⟩]
        else if new_status == "failed" then
          let m := "⚠️ Delivery failed for Order " ++ order_id ++ ". Please contact support."
          [⟨customer_contact, m, send_sms provider customer_contact m⟩]
        else []
      ⟨s1,
       .ok { status := "ok", order_id := order_id, current_status := new_status },
       sms⟩

/-- GET /share/{order_id} (`share_page`): the geolocation HTML page, rendered
from the order id alone.  The handler is given the store to express in the
model that, unlike the per-order JSON endpoints, it never consults it. -/
def share_page (_s : Store) (order_id : String) : String :=
  ("\n"
  ++ "    <html>\n"
  ++ "    <head><title>Share Location</title></head>\n"
  ++ "    <body>\n"
  ++ "        <h2>📦 Sharing Location for Order ")
  ++ order_id ++
  ("...</h2>\n"
  ++ "        <p id=\"status\">⏳ Requesting your location...</p>\n"
  ++ "        <script>\n"
  ++ "        window.onload = function() \x7b\n"
  ++ "            if (navigator.geolocation) \x7b\n"
  ++ "                navigator.geolocation.getCurrentPosition(function(pos) \x7b\n"
  ++ "                    fetch(\'/deliveries/")
  ++ order_id ++
  ("/location\', \x7b\n"
  ++ "                        method: \'POST\',\n"
  ++ "                        headers: \x7b \'Content-Type\': \'application/json\' \x7d,\n"
  ++ "                        body: JSON.stringify(\x7b lat: pos.coords.latitude, lon: pos.coords.longitude \x7d)\n"
  ++ "                    \x7d).then(res => res.text())\n"
  ++ "                      .then(data => \x7b\n"
  ++ "                          window.location.href = \"/thankyou/")
  ++ order_id ++
  ("\";\n"
  ++ "                      \x7d).catch(err => \x7b\n"
  ++ "                          document.getElementById(\'status\').innerText = \"❌ Error: \" + err;\n"
  ++ "                      \x7d);\n"
  ++ "                \x7d, function(error) \x7b\n"
  ++ "                    document.getElementById(\'status\').innerText = \"❌ Permission denied or error: \" + error.message;\n"
  ++ "                \x7d);\n"
  ++ "            \x7d else \x7b\n"
  ++ "                document.getElementById(\'status\').innerText = \"❌ Geolocation not supported by this browser.\";\n"
  ++ "            \x7d\n"
  ++ "        \x7d\n"
  ++ "        </script>\n"
  ++ "    </body>\n"
  ++ "    </html>\n"
  ++ "    ")

/-- GET /thankyou/{order_id} (`thank_you`): the static confirmation HTML
page, rendered from the order id alone; the store parameter plays the same
role as in `share_page`. -/
def thank_you (_s : Store) (order_id : String) : String :=
  ("\n"
  ++ "    <html>\n"
  ++ "    <head>\n"
  ++ "        <title>Location Received!</title>\n"
  ++ "        <meta name=\"viewport\" content=\"width=device-width, initial-scale=1.0\">\n"
  ++ "        <style>\n"
  ++ "            body \x7b \n"
  ++ "                font-family: -apple-system, BlinkMacSystemFont, \'Segoe UI\', Roboto, Helvetica, Arial, sans-serif;\n"
  ++ "                text-align: center; \n"
  ++ "                padding: 40px 20px; \n"
  ++ "                background-color: #f4f7f6;\n"
  ++ "                color: #333;\n"
  ++ "            \x7d\n"
  ++ "            h2 \x7b \n"
  ++ "                color: #28a745; /* A nice green color */\n"
  ++ "            \x7d\n"
  ++ "            p \x7b \n"
  ++ "                font-size: 1.1em; \n"
  ++ "                line-height: 1.6;\n"
  ++ "            \x7d\n"
  ++ "            .container \x7b\n"
  ++ "                max-width: 600px;\n"
  ++ "                margin: 0 auto;\n"
  ++ "                background-color: #ffffff;\n"
  ++ "                padding: 30px;\n"
  ++ "                border-radius: 8px;\n"
  ++ "                box-shadow: 0 4px 8px rgba(0,0,0,0.1);\n"
  ++ "            \x7d\n"
  ++ "        </style>\n"
  ++ "    </head>\n"
  ++ "    <body>\n"
  ++ "        <div class=\"container\">\n"
  ++ "            <h2>✅ Location Received!</h2>\n"
  ++ "            <p>The delivery bot has your location for Order <b>")
  ++ order_id ++
  ("</b> and is on the way to deliver your goods.</p>\n"
  ++ "            <p>Thank you!</p>\n"
  ++ "        </div>\n"
  ++ "    </body>\n"
  ++ "    </html>\n"
  ++ "    ")

/-!
Concrete sample data and invariants used by the development below.
-/

/-- A concrete provider that accepts every message. -/
def okProvider : Provider := fun _ _ => some "SM1"


/-- A concrete sample row, as the create endpoint would have inserted it. -/
def sampleRow : DeliveryRow :=
  ⟨1, "A1", "Warehouse 7", "221B Baker St", "+15551234567", "created",
   none, none, "2026-01-01T00:00:00", "2026-01-01T00:00:00"⟩


/-- A one-row sample store holding `sampleRow`. -/
def sampleStore : Store := ⟨[sampleRow], 2⟩


/-- Whether a location response carries `contact` in any of its string
fields; `lat` and `lon` are numbers, so these are the only places a contact
string could appear. -/
def LocationResponse.carriesContact (o : LocationResponse) (contact : String) : Bool :=
  o.status == contact || o.order_id == contact || o.current_status == contact


/-- The table invariant the SQL layer maintains: surrogate ids strictly
increase along insertion order (the primary key autoincrements) and stay
below the next id to be assigned. -/
def Store.WF (s : Store) : Prop :=
  s.rows.Pairwise (fun a b => a.id < b.id) ∧ ∀ r ∈ s.rows, r.id < s.nextId


/-- The stores the application can produce: the empty table after
`_ensure_db`, closed under the three mutating handlers (the read-only
handlers do not change the store). -/
inductive Reachable : Store → Prop where
  | init : Reachable Store.empty
  | create (provider : Provider) (server_url : String) (s : Store)
      (payload : DeliveryCreate) (now : String) :
      Reachable s → Reachable (create_delivery provider server_url s payload now).store
  | location (provider : Provider) (s : Store) (order_id : String)
      (loc : LocationUpdate) (now : String) :
      Reachable s → Reachable (set_target_location provider s order_id loc now).store
  | status (provider : Provider) (s : Store) (order_id new_status now : String) :
      Reachable s → Reachable (update_status provider s order_id new_status now).store


/-- A store reached by creating two distinct orders, for concrete checks. -/
def twoOrderStore : Store :=
  (create_delivery okProvider "https://bot.example"
    ((create_delivery okProvider "https://bot.example" Store.empty
        ⟨"A1", "P1", "D1", "+15551111111"⟩ "t1").store)
    ⟨"B2", "P2", "D2", "+15552222222"⟩ "t2").store

/-!
Lemmas about the store primitives, then one theorem (plus a concrete
witness) per property of the specification.
-/

theorem findRow_map_of_preserves (s : Store) (n : Nat) (oid : String)
    (f : DeliveryRow → DeliveryRow) (h : ∀ r, (f r).order_id = r.order_id) :
    Store.findRow ⟨s.rows.map f, n⟩ oid = (s.findRow oid).map f := by
  show (s.rows.map f).find? (fun r => r.order_id == oid) = _
  rw [List.find?_map]
  have hc : ((fun r : DeliveryRow => r.order_id == oid) ∘ f)
      = (fun r : DeliveryRow => r.order_id == oid) := by
    funext r
    simp [Function.comp, h]
  rw [hc]
  rfl

theorem findRow_if_update (s : Store) (n : Nat) (oid : String)
    (g : DeliveryRow → DeliveryRow) (hg : ∀ r, (g r).order_id = r.order_id)
    (r : DeliveryRow) (hr : s.findRow oid = some r) :
    Store.findRow ⟨s.rows.map (fun x => if x.order_id == oid then g x else x), n⟩ oid
      = some (g r) := by
  have hr0 : s.rows.find? (fun x => x.order_id == oid) = some r := hr
  have hp := List.find?_some hr0
  have hf : ∀ x : DeliveryRow,
      ((fun x : DeliveryRow => if x.order_id == oid then g x else x) x).order_id = x.order_id := by
    intro x
    dsimp only
    split
    · exact hg x
    · rfl
  rw [findRow_map_of_preserves s n oid _ hf, hr]
  dsimp only [Option.map]
  rw [if_pos hp]

theorem any_true_of_findRow_some (s : Store) (oid : String) (r : DeliveryRow)
    (h : s.findRow oid = some r) :
    s.rows.any (fun x => x.order_id == oid) = true := by
  have h0 : s.rows.find? (fun x => x.order_id == oid) = some r := h
  have hp := List.find?_some h0
  exact List.any_eq_true.mpr ⟨r, List.mem_of_find?_eq_some h0, hp⟩

theorem any_false_of_findRow_none (s : Store) (oid : String)
    (h : s.findRow oid = none) :
    s.rows.any (fun x => x.order_id == oid) = false := by
  have h0 : s.rows.find? (fun x => x.order_id == oid) = none := h
  rw [Bool.eq_false_iff]
  intro hc
  rcases List.any_eq_true.mp hc with ⟨a, ha, hpa⟩
  exact (List.find?_eq_none.mp h0 a ha) hpa

theorem create_delivery_store (provider : Provider) (server_url : String)
    (s : Store) (payload : DeliveryCreate) (now : String) :
    (create_delivery provider server_url s payload now).store = upsertRow s payload now := by
  unfold create_delivery
  cases h : (upsertRow s payload now).findRow payload.order_id <;> simp [h]

theorem findRow_upsert_existing (s : Store) (p : DeliveryCreate) (now : String)
    (r : DeliveryRow) (hr : s.findRow p.order_id = some r) :
    (upsertRow s p now).findRow p.order_id =
      some { r with pickup_location := p.pickup_location,
                    drop_location := p.drop_location,
                    customer_contact := p.customer_contact,
                    updated_at := now } := by
  unfold upsertRow
  rw [if_pos (any_true_of_findRow_some s p.order_id r hr)]
  exact findRow_if_update s s.nextId p.order_id
    (fun x => { x with pickup_location := p.pickup_location,
                       drop_location := p.drop_location,
                       customer_contact := p.customer_contact,
                       updated_at := now })
    (fun x => rfl) r hr

theorem upsert_fresh (s : Store) (p : DeliveryCreate) (now : String)
    (h : s.findRow p.order_id = none) :
    upsertRow s p now =
      ⟨s.rows ++ [{ id := s.nextId, order_id := p.order_id,
                    pickup_location := p.pickup_location,
                    drop_location := p.drop_location,
                    customer_contact := p.customer_contact,
                    status := "created", target_lat := none, target_lon := none,
                    created_at := now, updated_at := now }], s.nextId + 1⟩ := by
  unfold upsertRow
  rw [if_neg]
  rw [any_false_of_findRow_none s p.order_id h]
  exact Bool.false_ne_true

theorem upsert_existing_rows (s : Store) (p : DeliveryCreate) (now : String)
    (h : s.rows.any (fun x => x.order_id == p.order_id) = true) :
    upsertRow s p now =
      { s with rows := s.rows.map (fun x =>
          if x.order_id == p.order_id then
            { x with pickup_location := p.pickup_location,
                     drop_location := p.drop_location,
                     customer_contact := p.customer_contact,
                     updated_at := now }
          else x) } := by
  unfold upsertRow
  rw [if_pos h]

theorem findRow_fresh (s : Store) (p : DeliveryCreate) (now : String)
    (h : s.findRow p.order_id = none) :
    (upsertRow s p now).findRow p.order_id =
      some ⟨s.nextId, p.order_id, p.pickup_location, p.drop_location,
            p.customer_contact, "created", none, none, now, now⟩ := by
  rw [upsert_fresh s p now h]
  show (s.rows ++ [_]).find? (fun x : DeliveryRow => x.order_id == p.order_id) = _
  rw [List.find?_append]
  have h0 : s.rows.find? (fun x => x.order_id == p.order_id) = none := h
  rw [h0]
  simp [List.find?]

/-- C1: upserting an existing order_id overwrites only pickup_location,
drop_location, customer_contact and updated_at, leaving id, status,
created_at and target_lat/lon unchanged; and two upserts of the same
order_id starting from a store without it leave exactly one row for it,
with the first call's created_at and the second call's
pickup/drop/contact/updated_at. -/
theorem upsert_keeps_identity_fields (provider : Provider) (server_url : String) :
    (∀ (s : Store) (p : DeliveryCreate) (now : String) (r : DeliveryRow),
        s.findRow p.order_id = some r →
        ((create_delivery provider server_url s p now).store).findRow p.order_id =
          some { r with pickup_location := p.pickup_location,
                        drop_location := p.drop_location,
                        customer_contact := p.customer_contact,
                        updated_at := now })
    ∧ (∀ (s : Store) (p1 p2 : DeliveryCreate) (now1 now2 : String),
        p2.order_id = p1.order_id →
        s.findRow p1.order_id = none →
        ((((create_delivery provider server_url
              ((create_delivery provider server_url s p1 now1).store) p2 now2).store).rows.filter
            (fun r => r.order_id == p1.order_id)).length = 1
        ∧ (((create_delivery provider server_url
              ((create_delivery provider server_url s p1 now1).store) p2 now2).store).findRow
              p1.order_id =
            some { id := s.nextId, order_id := p1.order_id,
                   pickup_location := p2.pickup_location, drop_location := p2.drop_location,
                   customer_contact := p2.customer_contact, status := "created",
                   target_lat := none, target_lon := none,
                   created_at := now1, updated_at := now2 }))) := by
  constructor
  · intro s p now r hr
    rw [create_delivery_store]
    exact findRow_upsert_existing s p now r hr
  · intro s p1 p2 now1 now2 heq h
    obtain ⟨oid2, pu2, dr2, cc2⟩ := p2
    dsimp only at heq ⊢
    subst heq
    rw [create_delivery_store, create_delivery_store]
    have hfind := findRow_fresh s p1 now1 h
    set s1 := upsertRow s p1 now1 with hs1
    set row1 : DeliveryRow :=
      ⟨s.nextId, p1.order_id, p1.pickup_location, p1.drop_location,
       p1.customer_contact, "created", none, none, now1, now1⟩ with hrow1
    have hfind2 : s1.findRow (⟨p1.order_id, pu2, dr2, cc2⟩ : DeliveryCreate).order_id
        = some row1 := hfind
    constructor
    · have hany := any_true_of_findRow_some s1 p1.order_id row1 hfind
      rw [upsert_existing_rows s1 ⟨p1.order_id, pu2, dr2, cc2⟩ now2 hany]
      dsimp only
      rw [List.filter_map, List.length_map]
      have hcomp : ((fun r : DeliveryRow => r.order_id == p1.order_id) ∘ (fun x =>
          if x.order_id == p1.order_id then
            { x with pickup_location := pu2, drop_location := dr2,
                     customer_contact := cc2, updated_at := now2 }
          else x)) = (fun r : DeliveryRow => r.order_id == p1.order_id) := by
        funext x
        dsimp only [Function.comp]
        split <;> rfl
      rw [hcomp]
      rw [hs1, upsert_fresh s p1 now1 h]
      dsimp only
      rw [List.filter_append]
      have hnil : s.rows.filter (fun r => r.order_id == p1.order_id) = [] := by
        refine List.filter_eq_nil_iff.mpr ?_
        intro a ha
        have h0 : s.rows.find? (fun x => x.order_id == p1.order_id) = none := h
        exact List.find?_eq_none.mp h0 a ha
      rw [hnil]
      simp
    · have := findRow_upsert_existing s1 ⟨p1.order_id, pu2, dr2, cc2⟩ now2 row1 hfind2
      dsimp only at this
      rw [this]
  

/-- C2: on an existing order_id, update_status persists the new status
string verbatim (any string) and makes exactly one SMS attempt with the
delivery-confirmation template when the status is "completed", exactly one
with the failure/support template when it is "failed", and none for any
other status value. -/
theorem update_status_persists_and_notifies (provider : Provider) (s : Store) (oid new_status now : String)
    (r : DeliveryRow) (h : s.findRow oid = some r) :
    ((update_status provider s oid new_status now).store).findRow oid =
      some { r with status := new_status, updated_at := now }
    ∧ (update_status provider s oid new_status now).sms =
      (if new_status = "completed" then
        [⟨r.customer_contact, "✅ Your parcel (Order " ++ oid ++ ") has been delivered!",
          send_sms provider r.customer_contact
            ("✅ Your parcel (Order " ++ oid ++ ") has been delivered!")⟩]
      else if new_status = "failed" then
        [⟨r.customer_contact, "⚠️ Delivery failed for Order " ++ oid ++ ". Please contact support.",
          send_sms provider r.customer_contact
            ("⚠️ Delivery failed for Order " ++ oid ++ ". Please contact support.")⟩]
      else []) := by
  constructor
  · simp only [update_status, h]
    exact findRow_if_update s s.nextId oid
      (fun x => { x with status := new_status, updated_at := now })
      (fun x => rfl) r h
  · simp only [update_status, h]
    by_cases h1 : new_status = "completed"
    · subst h1
      simp
    · by_cases h2 : new_status = "failed"
      · subst h2
        simp
      · simp [h1, h2]

/-- C10: the success responses of set_location and update_status are built
entirely from caller-supplied input: set_location echoes the supplied lat
and lon with current_status the literal "location_received", and
update_status reports current_status equal to the new_status path parameter
verbatim. -/
theorem responses_echo_caller_input (provider : Provider) (s : Store) (oid new_status now : String)
    (loc : LocationUpdate) (r : DeliveryRow) (h : s.findRow oid = some r) :
    (set_target_location provider s oid loc now).resp =
      .ok ⟨"ok", oid, loc.lat, loc.lon, "location_received"⟩
    ∧ (update_status provider s oid new_status now).resp =
      .ok ⟨"ok", oid, new_status⟩ := by
  constructor
  · simp [set_target_location, h]
  · simp [update_status, h]

/-- C9: the /share/{order_id} and /thankyou/{order_id} HTML pages are
rendered from the order id alone: the store never influences them (so an
order_id with no record still gets the page, never a not-found response —
the handlers have no failure path at all). -/
theorem html_pages_ignore_store (s1 s2 : Store) (order_id : String) :
    share_page s1 order_id = share_page s2 order_id
    ∧ thank_you s1 order_id = thank_you s2 order_id :=
  ⟨rfl, rfl⟩

/-- C3, counterexample: the claim that set_location returns the pre-update
customer contact together with the applied values is false on the code.  At
a concrete store whose only row has contact "+15551234567", the success
response is exactly the echoed values, and no field of that response
carries the contact (`lat` and `lon` are numbers, so the string fields are
the only place a contact could appear). -/
theorem set_location_response_omits_contact :
    (set_target_location okProvider sampleStore "A1" ⟨10, 20⟩ "2026-01-02T00:00:00").resp
      = .ok ⟨"ok", "A1", 10, 20, "location_received"⟩
    ∧ sampleStore.findRow "A1" = some sampleRow
    ∧ sampleRow.customer_contact = "+15551234567"
    ∧ LocationResponse.carriesContact ⟨"ok", "A1", 10, 20, "location_received"⟩ "+15551234567"
        = false :=
  ⟨rfl, rfl, rfl, rfl⟩

/-- C3, amended: on an existing order_id, set_location returns only the
applied values (the echoed lat/lon and the literal status
"location_received"); the pre-update customer contact is read before the
update and used as the recipient of the single confirmation SMS, not
returned in the response. -/
theorem set_location_echo_and_sms_recipient (provider : Provider) (s : Store) (oid now : String)
    (loc : LocationUpdate) (r : DeliveryRow) (h : s.findRow oid = some r) :
    (set_target_location provider s oid loc now).resp =
      .ok ⟨"ok", oid, loc.lat, loc.lon, "location_received"⟩
    ∧ (set_target_location provider s oid loc now).sms =
      [⟨r.customer_contact, "✅ Delivery Bot received your location! Order ID: " ++ oid,
        send_sms provider r.customer_contact
          ("✅ Delivery Bot received your location! Order ID: " ++ oid)⟩] := by
  constructor
  · simp [set_target_location, h]
  · simp [set_target_location, h]

/-- C5: set_location on an order_id absent from the store fails with
HTTP 404 "order not found", performs no write (the store is returned
unchanged), and attempts no SMS. -/
theorem set_location_unknown_not_found (provider : Provider) (s : Store) (oid : String)
    (loc : LocationUpdate) (now : String) (h : s.findRow oid = none) :
    (set_target_location provider s oid loc now).store = s
    ∧ (set_target_location provider s oid loc now).resp = .error ⟨404, "order not found"⟩
    ∧ (set_target_location provider s oid loc now).sms = [] := by
  simp [set_target_location, h]

/-- C6: set_location on an existing order_id sets the stored status to
"location_received" and persists target_lat/target_lon exactly equal to the
supplied coordinates — any values, including negative and zero. -/
theorem set_location_persists_exact_coordinates (provider : Provider) (s : Store) (oid : String)
    (loc : LocationUpdate) (now : String) (r : DeliveryRow)
    (h : s.findRow oid = some r) :
    ((set_target_location provider s oid loc now).store).findRow oid =
      some { r with target_lat := some loc.lat, target_lon := some loc.lon,
                    status := "location_received", updated_at := now } := by
  simp only [set_target_location, h]
  exact findRow_if_update s s.nextId oid
    (fun x => { x with target_lat := some loc.lat, target_lon := some loc.lon,
                       status := "location_received", updated_at := now })
    (fun x => rfl) r h

theorem findRow_map_none (s : Store) (n : Nat) (oid : String)
    (f : DeliveryRow → DeliveryRow) (hf : ∀ r, (f r).order_id = r.order_id)
    (h : s.findRow oid = none) :
    Store.findRow ⟨s.rows.map f, n⟩ oid = none := by
  rw [findRow_map_of_preserves s n oid f hf, h]
  rfl

theorem findRow_if_update_none (s : Store) (n : Nat) (oid t : String)
    (g : DeliveryRow → DeliveryRow) (hg : ∀ r, (g r).order_id = r.order_id)
    (h : s.findRow oid = none) :
    Store.findRow ⟨s.rows.map (fun x => if x.order_id == t then g x else x), n⟩ oid = none := by
  refine findRow_map_none s n oid _ ?_ h
  intro x
  dsimp only
  split
  · exact hg x
  · rfl

/-- C4: send_sms never raises — it is a total function returning `true`
exactly on confirmed provider acceptance and `false` on any failure — and
for each mutating handler the committed store, the HTTP response, and the
recipients/bodies of the attempted notifications are all independent of the
provider's outcome: a notification failure changes neither the stored
record nor the success of the response.  (The state change is computed and
committed before `send_sms` runs; in this embedding that ordering shows up
as the store and response not depending on the provider oracle at all.) -/
theorem notification_isolated_from_state (f g : Provider) (server_url : String)
    (s : Store) (payload : DeliveryCreate) (oid new_status now : String)
    (loc : LocationUpdate) (to_number message : String) :
    send_sms f to_number message = (f to_number message).isSome
    ∧ ((create_delivery f server_url s payload now).store
         = (create_delivery g server_url s payload now).store
       ∧ (create_delivery f server_url s payload now).resp
         = (create_delivery g server_url s payload now).resp
       ∧ (create_delivery f server_url s payload now).sms.map (fun a => (a.to_number, a.body))
         = (create_delivery g server_url s payload now).sms.map (fun a => (a.to_number, a.body)))
    ∧ ((set_target_location f s oid loc now).store = (set_target_location g s oid loc now).store
       ∧ (set_target_location f s oid loc now).resp = (set_target_location g s oid loc now).resp
       ∧ (set_target_location f s oid loc now).sms.map (fun a => (a.to_number, a.body))
         = (set_target_location g s oid loc now).sms.map (fun a => (a.to_number, a.body)))
    ∧ ((update_status f s oid new_status now).store = (update_status g s oid new_status now).store
       ∧ (update_status f s oid new_status now).resp = (update_status g s oid new_status now).resp
       ∧ (update_status f s oid new_status now).sms.map (fun a => (a.to_number, a.body))
         = (update_status g s oid new_status now).sms.map (fun a => (a.to_number, a.body))) := by
  refine ⟨?_, ⟨?_, ?_, ?_⟩, ⟨?_, ?_, ?_⟩, ⟨?_, ?_, ?_⟩⟩
  · cases hfm : f to_number message <;> simp [send_sms, hfm]
  · cases h : (upsertRow s payload now).findRow payload.order_id <;> simp [create_delivery, h]
  · cases h : (upsertRow s payload now).findRow payload.order_id <;> simp [create_delivery, h]
  · cases h : (upsertRow s payload now).findRow payload.order_id <;> simp [create_delivery, h]
  · cases h : s.findRow oid <;> simp [set_target_location, h]
  · cases h : s.findRow oid <;> simp [set_target_location, h]
  · cases h : s.findRow oid <;> simp [set_target_location, h]
  · cases h : s.findRow oid <;> simp [update_status, h]
  · cases h : s.findRow oid <;> simp [update_status, h]
  · cases h : s.findRow oid with
    | none => simp [update_status, h]
    | some r =>
        simp only [update_status, h]
        by_cases h1 : (new_status == "completed") = true
        · simp [h1]
        · rw [Bool.not_eq_true] at h1
          by_cases h2 : (new_status == "failed") = true
          · simp [h1, h2]
          · rw [Bool.not_eq_true] at h2
            simp [h1, h2]

/-- C7: get_delivery on an order_id with no row fails with HTTP 404
"order not found"; moreover no operation ever creates such a row except a
create with that very order_id (and none deletes rows), so an order_id that
was never created stays absent and every lookup of it keeps failing. -/
theorem get_delivery_never_created_not_found (s : Store) (oid : String) (h : s.findRow oid = none) :
    get_delivery s oid = .error ⟨404, "order not found"⟩
    ∧ (∀ (provider : Provider) (server_url now : String) (p : DeliveryCreate),
        p.order_id ≠ oid →
        ((create_delivery provider server_url s p now).store).findRow oid = none)
    ∧ (∀ (provider : Provider) (oid2 now : String) (loc : LocationUpdate),
        ((set_target_location provider s oid2 loc now).store).findRow oid = none)
    ∧ (∀ (provider : Provider) (oid2 new_status now : String),
        ((update_status provider s oid2 new_status now).store).findRow oid = none) := by
  refine ⟨?_, ?_, ?_, ?_⟩
  · simp [get_delivery, h]
  · intro provider server_url now p hne
    rw [create_delivery_store]
    cases hb : s.rows.any (fun x => x.order_id == p.order_id) with
    | true =>
        rw [upsert_existing_rows s p now hb]
        exact findRow_if_update_none s s.nextId oid p.order_id
          (fun x => { x with pickup_location := p.pickup_location,
                             drop_location := p.drop_location,
                             customer_contact := p.customer_contact,
                             updated_at := now }) (fun x => rfl) h
    | false =>
        have hnone : s.findRow p.order_id = none := by
          show s.rows.find? (fun x => x.order_id == p.order_id) = none
          rw [List.find?_eq_none]
          intro a ha hpa
          have : s.rows.any (fun x => x.order_id == p.order_id) = true :=
            List.any_eq_true.mpr ⟨a, ha, hpa⟩
          rw [hb] at this
          exact Bool.false_ne_true this
        rw [upsert_fresh s p now hnone]
        show (s.rows ++ [_]).find? (fun x : DeliveryRow => x.order_id == oid) = none
        rw [List.find?_append]
        have h0 : s.rows.find? (fun x : DeliveryRow => x.order_id == oid) = none := h
        rw [h0]
        have hbeq : (p.order_id == oid) = false := beq_eq_false_iff_ne.mpr hne
        simp [List.find?, hbeq]
  · intro provider oid2 now loc
    cases h2 : s.findRow oid2 with
    | none => simpa [set_target_location, h2] using h
    | some r =>
        simp only [set_target_location, h2]
        exact findRow_if_update_none s s.nextId oid oid2
          (fun x => { x with target_lat := some loc.lat, target_lon := some loc.lon,
                             status := "location_received", updated_at := now })
          (fun x => rfl) h
  · intro provider oid2 new_status now
    cases h2 : s.findRow oid2 with
    | none => simpa [update_status, h2] using h
    | some r =>
        simp only [update_status, h2]
        exact findRow_if_update_none s s.nextId oid oid2
          (fun x => { x with status := new_status, updated_at := now })
          (fun x => rfl) h

theorem WF_map (s : Store) (f : DeliveryRow → DeliveryRow)
    (hid : ∀ r, (f r).id = r.id) (h : s.WF) :
    Store.WF ⟨s.rows.map f, s.nextId⟩ := by
  constructor
  · rw [List.pairwise_map]
    refine h.1.imp ?_
    intro a b hab
    rw [hid a, hid b]
    exact hab
  · intro r hr
    rcases List.mem_map.mp hr with ⟨a, ha, rfl⟩
    rw [hid a]
    exact h.2 a ha

theorem WF_if_update (s : Store) (t : String) (g : DeliveryRow → DeliveryRow)
    (hg : ∀ r, (g r).id = r.id) (h : s.WF) :
    Store.WF ⟨s.rows.map (fun x => if x.order_id == t then g x else x), s.nextId⟩ := by
  refine WF_map s _ ?_ h
  intro x
  dsimp only
  split
  · exact hg x
  · rfl

theorem WF_upsert (s : Store) (p : DeliveryCreate) (now : String) (h : s.WF) :
    (upsertRow s p now).WF := by
  unfold upsertRow
  split
  · exact WF_if_update s p.order_id
      (fun x => { x with pickup_location := p.pickup_location,
                         drop_location := p.drop_location,
                         customer_contact := p.customer_contact,
                         updated_at := now }) (fun x => rfl) h
  · constructor
    · rw [List.pairwise_append]
      refine ⟨h.1, by simp, ?_⟩
      intro a ha b hb
      simp only [List.mem_singleton] at hb
      subst hb
      exact h.2 a ha
    · intro r hr
      rcases List.mem_append.mp hr with hr | hr
      · exact Nat.lt_succ_of_lt (h.2 r hr)
      · simp only [List.mem_singleton] at hr
        subst hr
        exact Nat.lt_succ_self _

theorem reachable_wf (s : Store) (h : Reachable s) : s.WF := by
  induction h with
  | init => exact ⟨List.Pairwise.nil, by intro r hr; cases hr⟩
  | create provider server_url s payload now _ ih =>
      rw [create_delivery_store]
      exact WF_upsert s payload now ih
  | location provider s order_id loc now _ ih =>
      cases h2 : s.findRow order_id with
      | none => simpa [set_target_location, h2] using ih
      | some r =>
          simp only [set_target_location, h2]
          exact WF_if_update s order_id
            (fun x => { x with target_lat := some loc.lat, target_lon := some loc.lon,
                               status := "location_received", updated_at := now })
            (fun x => rfl) ih
  | status provider s order_id new_status now _ ih =>
      cases h2 : s.findRow order_id with
      | none => simpa [update_status, h2] using ih
      | some r =>
          simp only [update_status, h2]
          exact WF_if_update s order_id
            (fun x => { x with status := new_status, updated_at := now })
            (fun x => rfl) ih

/-- C8: on every store the app can reach, list_deliveries returns all rows
(a permutation of the table) in strictly descending surrogate-id order,
i.e. most recently inserted first, regardless of any update history (updates
keep each row's id). -/
theorem list_deliveries_descending_id (s : Store) (h : Reachable s) :
    (list_deliveries s).Perm s.rows
    ∧ (list_deliveries s).Pairwise (fun a b => b.id < a.id) := by
  have hperm : (list_deliveries s).Perm s.rows :=
    List.mergeSort_perm s.rows (fun a b => decide (b.id ≤ a.id))
  refine ⟨hperm, ?_⟩
  have hwf := reachable_wf s h
  have htrans : ∀ a b c : DeliveryRow,
      decide (b.id ≤ a.id) = true → decide (c.id ≤ b.id) = true →
      decide (c.id ≤ a.id) = true := by
    intro a b c h1 h2
    simp only [decide_eq_true_eq] at *
    omega
  have htotal : ∀ a b : DeliveryRow,
      (decide (b.id ≤ a.id) || decide (a.id ≤ b.id)) = true := by
    intro a b
    simp only [Bool.or_eq_true, decide_eq_true_eq]
    omega
  have hsorted : (list_deliveries s).Pairwise
      (fun a b : DeliveryRow => decide (b.id ≤ a.id) = true) :=
    List.sorted_mergeSort htrans htotal s.rows
  have hne : s.rows.Pairwise (fun a b : DeliveryRow => a.id ≠ b.id) :=
    hwf.1.imp (fun hab => Nat.ne_of_lt hab)
  have hne2 : (list_deliveries s).Pairwise (fun a b : DeliveryRow => a.id ≠ b.id) :=
    (List.Perm.pairwise_iff (fun hxy => Ne.symm hxy) hperm).mpr hne
  refine (hsorted.and hne2).imp ?_
  intro a b hab
  rcases hab with ⟨h1, h2⟩
  have h1' : b.id ≤ a.id := of_decide_eq_true h1
  omega

/-- Concrete check of C1 at order "A1" upserted twice. -/
theorem upsert_keeps_identity_fields_witness :
    Store.empty.findRow "A1" = none
    ∧ ((((create_delivery okProvider "https://bot.example"
          ((create_delivery okProvider "https://bot.example" Store.empty
              ⟨"A1", "P1", "D1", "+15551111111"⟩ "t1").store)
          ⟨"A1", "P2", "D2", "+15552222222"⟩ "t2").store).rows.filter
            (fun r => r.order_id == "A1")).length = 1
    ∧ (((create_delivery okProvider "https://bot.example"
          ((create_delivery okProvider "https://bot.example" Store.empty
              ⟨"A1", "P1", "D1", "+15551111111"⟩ "t1").store)
          ⟨"A1", "P2", "D2", "+15552222222"⟩ "t2").store).findRow "A1" =
        some ⟨1, "A1", "P2", "D2", "+15552222222", "created", none, none, "t1", "t2"⟩)) :=
  ⟨rfl, (upsert_keeps_identity_fields okProvider "https://bot.example").2 Store.empty
    ⟨"A1", "P1", "D1", "+15551111111"⟩ ⟨"A1", "P2", "D2", "+15552222222"⟩ "t1" "t2" rfl rfl⟩

/-- Concrete check of C2 at status "completed". -/
theorem update_status_persists_and_notifies_witness :
    sampleStore.findRow "A1" = some sampleRow
    ∧ ((update_status okProvider sampleStore "A1" "completed" "t2").store).findRow "A1" =
        some { sampleRow with status := "completed", updated_at := "t2" }
    ∧ (update_status okProvider sampleStore "A1" "completed" "t2").sms =
        [⟨"+15551234567", "✅ Your parcel (Order A1) has been delivered!", true⟩] := by
  refine ⟨rfl, (update_status_persists_and_notifies okProvider sampleStore "A1" "completed" "t2" sampleRow rfl).1, ?_⟩
  rw [(update_status_persists_and_notifies okProvider sampleStore "A1" "completed" "t2" sampleRow rfl).2]
  rfl

/-- Concrete check of the amended C3 on the sample store. -/
theorem set_location_echo_and_sms_recipient_witness :
    sampleStore.findRow "A1" = some sampleRow
    ∧ (set_target_location okProvider sampleStore "A1" ⟨10, 20⟩ "t2").resp =
        .ok ⟨"ok", "A1", 10, 20, "location_received"⟩
    ∧ (set_target_location okProvider sampleStore "A1" ⟨10, 20⟩ "t2").sms =
        [⟨"+15551234567", "✅ Delivery Bot received your location! Order ID: A1", true⟩] := by
  refine ⟨rfl, (set_location_echo_and_sms_recipient okProvider sampleStore "A1" "t2" ⟨10, 20⟩ sampleRow rfl).1, ?_⟩
  rw [(set_location_echo_and_sms_recipient okProvider sampleStore "A1" "t2" ⟨10, 20⟩ sampleRow rfl).2]
  rfl

/-- Concrete check of C5 at the unknown order "ZZ". -/
theorem set_location_unknown_not_found_witness :
    sampleStore.findRow "ZZ" = none
    ∧ (set_target_location okProvider sampleStore "ZZ" ⟨10, 20⟩ "t2").store = sampleStore
    ∧ (set_target_location okProvider sampleStore "ZZ" ⟨10, 20⟩ "t2").resp =
        .error ⟨404, "order not found"⟩
    ∧ (set_target_location okProvider sampleStore "ZZ" ⟨10, 20⟩ "t2").sms = [] := by
  have h := set_location_unknown_not_found okProvider sampleStore "ZZ" ⟨10, 20⟩ "t2" rfl
  exact ⟨rfl, h.1, h.2.1, h.2.2⟩

/-- Concrete check of C6 with a negative latitude and zero longitude. -/
theorem set_location_persists_exact_coordinates_witness :
    sampleStore.findRow "A1" = some sampleRow
    ∧ ((set_target_location okProvider sampleStore "A1" ⟨-10, 0⟩ "t2").store).findRow "A1" =
        some { sampleRow with target_lat := some (-10), target_lon := some 0,
                              status := "location_received", updated_at := "t2" } :=
  ⟨rfl, set_location_persists_exact_coordinates okProvider sampleStore "A1" ⟨-10, 0⟩ "t2" sampleRow rfl⟩

/-- Concrete check of C7: "ZZ" stays absent across all operations. -/
theorem get_delivery_never_created_not_found_witness :
    get_delivery sampleStore "ZZ" = .error ⟨404, "order not found"⟩
    ∧ ((create_delivery okProvider "https://bot.example" sampleStore
          ⟨"A1", "P1", "D1", "+15551111111"⟩ "t2").store).findRow "ZZ" = none
    ∧ ((set_target_location okProvider sampleStore "A1" ⟨1, 2⟩ "t2").store).findRow "ZZ" = none
    ∧ ((update_status okProvider sampleStore "A1" "completed" "t2").store).findRow "ZZ" = none := by
  obtain ⟨h1, h2, h3, h4⟩ := get_delivery_never_created_not_found sampleStore "ZZ" rfl
  exact ⟨h1,
    h2 okProvider "https://bot.example" "t2" ⟨"A1", "P1", "D1", "+15551111111"⟩ (by decide),
    h3 okProvider "A1" "t2" ⟨1, 2⟩,
    h4 okProvider "A1" "completed" "t2"⟩

/-- Concrete check of C8 on a reachable two-order store. -/
theorem list_deliveries_descending_id_witness :
    (list_deliveries twoOrderStore).Perm twoOrderStore.rows
    ∧ (list_deliveries twoOrderStore).Pairwise (fun a b => b.id < a.id) :=
  list_deliveries_descending_id twoOrderStore
    (Reachable.create okProvider "https://bot.example" _ ⟨"B2", "P2", "D2", "+15552222222"⟩ "t2"
      (Reachable.create okProvider "https://bot.example" _ ⟨"A1", "P1", "D1", "+15551111111"⟩ "t1"
        Reachable.init))

/-- Concrete check of C10 with a non-lifecycle status string. -/
theorem responses_echo_caller_input_witness :
    sampleStore.findRow "A1" = some sampleRow
    ∧ (set_target_location okProvider sampleStore "A1" ⟨10, 20⟩ "t2").resp =
        .ok ⟨"ok", "A1", 10, 20, "location_received"⟩
    ∧ (update_status okProvider sampleStore "A1" "on_the_way" "t2").resp =
        .ok ⟨"ok", "A1", "on_the_way"⟩ := by
  have h := responses_echo_caller_input okProvider sampleStore "A1" "on_the_way" "t2" ⟨10, 20⟩ sampleRow rfl
  exact ⟨rfl, h.1, h.2⟩

end DeliveryBot
